import Mathlib

/-!
# JalopyAlerts worker — shallow embedding and verification

This file embeds the saved-search alert engine of `worker/worker.js`
(a Cloudflare Worker aggregating junkyard inventory and serving
push-notification saved searches) into Lean 4 and proves properties of
the embedded operations.

Conventions of the embedding:
* JavaScript strings are `String`; `.trim()` is `jsTrim`, an
  executable whitespace trim (the JS code only trims, it never changes
  case).
* JS `null`/`undefined`-able fields are `Option _`.
* Numbers that the code treats as integral years are `Int`
  (every year handled by the code is an integer in [1900, 2100] or
  rejected); inventory-row years come from a `\d{4}` regex and are `Nat`.
* Functions that `throw` are `Except String _`.
* Network effects (upstream fetches, push delivery) are passed in as
  explicit arguments ("oracles"): the embedded function receives the
  rows an aggregation would return / the outcome a delivery would
  produce, and the theorems quantify over them.
-/

namespace JalopyAlerts

/-- `const MAX_ALERTS_TOTAL = 500` (worker.js line 11). -/
def MAX_ALERTS_TOTAL : Nat := 500

/-- `const MAX_ALERTS_PER_OWNER = 25` (worker.js line 12). -/
def MAX_ALERTS_PER_OWNER : Nat := 25

/-- `const DAILY_ALERT_CRON = "0 9 * * *"` (worker.js line 7). -/
def DAILY_ALERT_CRON : String := "0 9 * * *"

/-- An inventory row as produced by `parseInventoryHtml` plus the yard
fields added in `fetchAndParseInventory`:
`{ yardId, yardName, year, make, model, row }`.  The `year` comes from a
four-digit regex capture converted with `Number(...)`, so it is a `Nat`. -/
structure InventoryRow where
  yardId : String
  yardName : String
  year : Nat
  make : String
  model : String
  row : String
deriving Repr, DecidableEq

/-- JS `String(v || "")` applied to a string field: `""` stays `""` and
any other string is unchanged, i.e. the identity. Applied to a number it
maps `0` (falsy) to `""` and any other number to its decimal string. -/
def jsStringOrEmptyNat (n : Nat) : String :=
  if n = 0 then "" else toString n

/-- `inventoryKey(row)` (worker.js lines 463-465):
`[row?.yardId, row?.year, row?.make, row?.model, row?.row].map((v) => String(v || "")).join(":")`.
String fields pass through `String(v || "")` unchanged; the numeric
`year` becomes `""` when `0`. -/
def inventoryKey (r : InventoryRow) : String :=
  String.intercalate ":" [r.yardId, jsStringOrEmptyNat r.year, r.make, r.model, r.row]

/-- `diffNewVehicles(current, previous)` (worker.js lines 458-461):
```js
const prevKeys = new Set((previous || []).map(inventoryKey));
return (current || []).filter((row) => !prevKeys.has(inventoryKey(row)));
```
Set membership on strings is `List.contains` on the mapped key list. -/
def diffNewVehicles (current previous : List InventoryRow) : List InventoryRow :=
  let prevKeys := previous.map inventoryKey
  current.filter (fun row => !(prevKeys.contains (inventoryKey row)))

/-- `parseOptionalYear(value, { strict })` (worker.js lines 442-452):
```js
const text = (value ?? "").toString().trim();
if (!text) return null;
const n = Number(text);
const valid = Number.isFinite(n) && n >= 1900 && n <= 2100;
if (!valid) { if (strict) throw ...; return null; }
return n;
```
The embedding takes the value already as `Option Int`: `none` means the
field was absent (`null`/`undefined`/empty string, all of which make
`text` empty and return `null`); `some n` means a numeric value, whose
decimal string round-trips through `Number` to itself and is finite. -/
def parseOptionalYear (value : Option Int) (strict : Bool) : Except String (Option Int) :=
  match value with
  | none => .ok none
  | some n =>
    if 1900 ≤ n ∧ n ≤ 2100 then .ok (some n)
    else if strict then .error "Vehicle year must be between 1900 and 2100."
    else .ok none

/-- The `{minYear, maxYear}` object returned by `deriveYearRange`. -/
structure YearRange where
  minYear : Option Int
  maxYear : Option Int
deriving Repr, DecidableEq

/-- The three year-bearing inputs `deriveYearRange` reads from its
source object.  The JS reads each through an alias pair
(`VehicleMinYear ?? minYear`, etc.); the embedding keeps one canonical
field per bound. -/
structure YearSource where
  VehicleMinYear : Option Int
  VehicleMaxYear : Option Int
  VehicleYear : Option Int
deriving Repr, DecidableEq

/-- `deriveYearRange(source, { strict })` (worker.js lines 424-440):
parse the min/max/single year fields, default each missing bound to the
single year, and on `min > max` either throw (strict) or swap the two
bounds (lenient). -/
def deriveYearRange (source : YearSource) (strict : Bool) : Except String YearRange :=
  match parseOptionalYear source.VehicleMinYear strict with
  | .error e => .error e
  | .ok minYear =>
    match parseOptionalYear source.VehicleMaxYear strict with
    | .error e => .error e
    | .ok maxYear =>
      match parseOptionalYear source.VehicleYear strict with
      | .error e => .error e
      | .ok singleYear =>
        let normalizedMin := minYear.orElse fun _ => singleYear
        let normalizedMax := maxYear.orElse fun _ => singleYear
        match normalizedMin, normalizedMax with
        | some a, some b =>
          if a > b then
            if strict then .error "VehicleMinYear must be before VehicleMaxYear"
            else .ok ⟨some (min a b), some (max a b)⟩
          else .ok ⟨some a, some b⟩
        | _, _ => .ok ⟨normalizedMin, normalizedMax⟩

/-- The lenient call sites write `deriveYearRange(x)` with no options,
i.e. `strict = false`; the code relies on that call never throwing.
The embedding extracts the `.ok` payload (defaulting to an empty range
in the impossible `.error` case; `deriveYearRange_lenient_ok` below
shows the default is never used). -/
def deriveYearRangeLenient (source : YearSource) : YearRange :=
  match deriveYearRange source false with
  | .ok r => r
  | .error _ => ⟨none, none⟩

/-- `yearRangesEqual(a, b)` (worker.js lines 454-456): both bounds equal,
with absent bounds normalized to `null` (here `Option` equality). -/
def yearRangesEqual (a b : YearRange) : Bool :=
  a.minYear == b.minYear && a.maxYear == b.maxYear

/-- JS `String.prototype.trim()`: strip leading and trailing
whitespace.  Written with `dropWhile` so that it evaluates by `decide`
on concrete strings. -/
def jsTrim (s : String) : String :=
  String.mk (((s.toList.dropWhile Char.isWhitespace).reverse.dropWhile
    Char.isWhitespace).reverse)

/-- `normalizeText(v)` (worker.js lines 671-673):
`(v || "").toString().trim()` — for a string input this is just trim. -/
def normalizeText (v : String) : String := jsTrim v

/-- `normalizeText(v)` for a nullable string field (`v || ""` maps
`null` to `""` first). -/
def normalizeTextOpt (v : Option String) : String := jsTrim (v.getD "")

/-- The notification payload built by `buildNotificationPayload`
(worker.js lines 717-730): `{title, body, data:{alertId, count, yards}}`. -/
structure NotificationPayload where
  title : String
  body : String
  alertId : String
  count : Nat
  yards : String
deriving Repr, DecidableEq

/-- A stored SavedSearch record, as assembled by the create handler
(worker.js lines 539-558) and mutated by the sweep. -/
structure SavedSearch where
  id : String
  ownerKey : String
  createdAt : String
  VehicleMake : String
  VehicleModel : String
  VehicleYear : Option Int
  VehicleMinYear : Option Int
  VehicleMaxYear : Option Int
  pushEndpoint : Option String
  pushAuth : Option String
  pushP256dh : Option String
  lastSnapshot : List InventoryRow
  lastNotifiedAt : Option String
  lastNotificationStatus : Option String
  lastNotificationPayload : Option NotificationPayload
deriving Repr, DecidableEq

/-- The year fields `deriveYearRange(search)` reads off a stored record. -/
def SavedSearch.yearSource (s : SavedSearch) : YearSource :=
  ⟨s.VehicleMinYear, s.VehicleMaxYear, s.VehicleYear⟩

/-- The output of `validateAlertPayload` (worker.js lines 628-655):
make/model trimmed, the strict-validated year bounds, and a complete
push triple. -/
structure ValidatedPayload where
  VehicleMake : String
  VehicleModel : String
  VehicleYear : Option Int
  VehicleMinYear : Option Int
  VehicleMaxYear : Option Int
  pushEndpoint : String
  pushAuth : String
  pushP256dh : String
deriving Repr, DecidableEq

/-- The year fields `deriveYearRange(validated)` reads off a validated
payload. -/
def ValidatedPayload.yearSource (v : ValidatedPayload) : YearSource :=
  ⟨v.VehicleMinYear, v.VehicleMaxYear, v.VehicleYear⟩

/-- The duplicate predicate of the create handler (worker.js lines
525-533): same trimmed make, same trimmed model, equal derived (lenient)
year ranges, same trimmed push endpoint. -/
def isDuplicateOf (validated : ValidatedPayload) (desiredRange : YearRange)
    (s : SavedSearch) : Bool :=
  normalizeText s.VehicleMake == validated.VehicleMake
    && normalizeText s.VehicleModel == normalizeText validated.VehicleModel
    && yearRangesEqual (deriveYearRangeLenient s.yearSource) desiredRange
    && normalizeTextOpt s.pushEndpoint == normalizeText validated.pushEndpoint

/-- Outcome of an alert-store mutation: an HTTP-style error (status plus
message) or success carrying the new store contents written back to KV. -/
inductive StoreResult where
  | err (status : Nat) (message : String)
  | ok (newStore : List SavedSearch)
deriving Repr, DecidableEq

/-- The POST branch of `handleAlerts` (worker.js lines 499-564) after a
payload has passed `validateAlertPayload`.  Effects are explicit: `saved`
is the current KV contents, `newId`/`now` stand for
`crypto.randomUUID()`/`new Date().toISOString()`, and `prefetch` is the
outcome of the best-effort `runSavedSearch(base)` prefetch (`.error`
models the catch branch).  Returns the 429/409 rejections or the store
with the new record appended. -/
def createAlert (saved : List SavedSearch) (ownerKey : String)
    (validated : ValidatedPayload) (newId now : String)
    (prefetch : Except String (List InventoryRow)) : StoreResult :=
  if saved.length ≥ MAX_ALERTS_TOTAL then
    .err 429 "Alert capacity reached. Try again later."
  else
    let mine := saved.filter (fun s => s.ownerKey == ownerKey)
    if mine.length ≥ MAX_ALERTS_PER_OWNER then
      .err 429 "Too many saved alerts. Delete one before adding another."
    else
      let desiredRange := deriveYearRangeLenient validated.yearSource
      match mine.find? (isDuplicateOf validated desiredRange) with
      | some _ => .err 409 "You already saved this search."
      | none =>
        let base : SavedSearch :=
          { id := newId
            ownerKey := ownerKey
            createdAt := now
            VehicleMake := validated.VehicleMake
            VehicleModel := validated.VehicleModel
            VehicleYear := validated.VehicleYear
            VehicleMinYear := validated.VehicleMinYear
            VehicleMaxYear := validated.VehicleMaxYear
            pushEndpoint := some validated.pushEndpoint
            pushAuth := some validated.pushAuth
            pushP256dh := some validated.pushP256dh
            lastSnapshot := match prefetch with | .ok rows => rows | .error _ => []
            lastNotifiedAt := none
            lastNotificationStatus :=
              match prefetch with
              | .ok _ => none
              | .error e => some ("prefetch failed: " ++ e)
            lastNotificationPayload := none }
        .ok (saved ++ [base])

/-- The DELETE branch of `handleAlerts` (worker.js lines 566-582): trim
the id, 400 when blank, drop every record matching both id and
ownerKey, 404 when nothing matched.  The second component is the store
contents after the operation (KV is only written on success). -/
def deleteAlert (saved : List SavedSearch) (ownerKey rawId : String) :
    StoreResult × List SavedSearch :=
  let id := jsTrim rawId
  if id = "" then (.err 400 "id is required", saved)
  else
    let remaining := saved.filter (fun s => !(s.id == id && s.ownerKey == ownerKey))
    if remaining.length = saved.length then (.err 404 "Not found", saved)
    else (.ok remaining, remaining)

/-- `runPool(taskFns, limit)` (worker.js lines 329-347).  A task is
embedded as the value its thunk would produce: `.ok rows` for a normal
return, `.error e` for a throw.  The workers claim indices `i = 0, 1, …`
atomically (single-threaded cooperative model: `const idx = i++` cannot
interleave), every index below `taskFns.length` is claimed exactly once,
and `results[idx]` receives the task's value, with the catch branch
substituting `[]`.  The net denotation is therefore index-wise,
independent of which worker ran which task; `limit` only affects
scheduling, not results. -/
def runPool (taskFns : List (Except String (List α))) (_limit : Nat) :
    List (List α) :=
  taskFns.map fun t =>
    match t with
    | .ok v => v
    | .error _ => []

/-- The year post-filter of `runSavedSearch` (worker.js lines 417-421):
keep a row unless a present `minYear` exceeds its year or a present
`maxYear` is below it (inclusive bounds). -/
def yearInRange (range : YearRange) (r : InventoryRow) : Bool :=
  (match range.minYear with
   | some m => !((r.year : Int) < m)
   | none => true)
  && (match range.maxYear with
      | some m => !((r.year : Int) > m)
      | none => true)

/-- `runSavedSearch(search)` (worker.js lines 396-422) with the network
fan-out abstracted: `aggregated` is the flattened row list the pooled
yard fetches would return (`all.flat()`).  An empty trimmed make
short-circuits to `[]`; otherwise the derived (lenient) year range is
applied as a post-filter. -/
def runSavedSearch (search : SavedSearch) (aggregated : List InventoryRow) :
    List InventoryRow :=
  let vehicleMake := jsTrim search.VehicleMake
  let range := deriveYearRangeLenient search.yearSource
  if vehicleMake = "" then []
  else aggregated.filter (yearInRange range)

/-- Outcome of `deliverNotifications` (worker.js lines 684-703): always
a status string plus the payload built for the search. -/
structure DeliveryResult where
  status : String
  payload : NotificationPayload
deriving Repr, DecidableEq

/-- The per-record body of the sweep loop in `rerunSavedSearches`
(worker.js lines 373-391): re-run the search, diff against
`lastSnapshot`, always install the fresh snapshot, and only when the
diff is non-empty deliver and stamp the three notification fields.
`aggregated` and `deliver` are the network oracles and `now` is
`new Date().toISOString()`. -/
def sweepStep (search : SavedSearch) (aggregated : List InventoryRow)
    (now : String) (deliver : List InventoryRow → DeliveryResult) : SavedSearch :=
  let currentRows := runSavedSearch search aggregated
  let previousRows := search.lastSnapshot
  let newVehicles := diffNewVehicles currentRows previousRows
  let next := { search with lastSnapshot := currentRows }
  if newVehicles.isEmpty then next
  else
    let delivery := deliver newVehicles
    { next with
        lastNotifiedAt := some now
        lastNotificationStatus := some delivery.status
        lastNotificationPayload := some delivery.payload }

/-- `rerunSavedSearches(env)` (worker.js lines 363-394) over an explicit
store: each stored search is processed sequentially by `sweepStep` and
the refreshed list replaces the whole collection.  `fetch` and `deliver`
supply each search's aggregation result and delivery outcome. -/
def rerunSavedSearches (saved : List SavedSearch)
    (fetch : SavedSearch → List InventoryRow) (now : String)
    (deliver : SavedSearch → List InventoryRow → DeliveryResult) :
    List SavedSearch :=
  saved.map fun search => sweepStep search (fetch search) now (deliver search)

/-- The guard of the `scheduled` entry point (worker.js lines 100-103):
```js
if (event.cron && event.cron !== DAILY_ALERT_CRON) return;
ctx.waitUntil(rerunSavedSearches(env));
```
`none` models an event without a `cron` property; a present but empty
string is falsy in JS, so only a present, non-empty, non-matching cron
short-circuits.  Returns whether the sweep is started. -/
def scheduledRunsSweep (cron : Option String) : Bool :=
  match cron with
  | none => true
  | some c => if c ≠ "" && c ≠ DAILY_ALERT_CRON then false else true

/-- JS `x || null` on a nullable string: empty (falsy) collapses to null. -/
def orNullString (v : Option String) : Option String :=
  match v with
  | some s => if s = "" then none else some s
  | none => none

/-- The request data `handleNotificationPoll` could observe: network
metadata (the headers `hashOwner` would use) and the parsed body. -/
structure PollRequest where
  callerIp : String
  callerUa : String
  bodyEndpoint : String
  bodyClientId : String
deriving Repr, DecidableEq

/-- Response of the notification poll: an error, or the notification
triple (all-null when no record matches the endpoint). -/
inductive PollResponse where
  | err (status : Nat) (message : String)
  | ok (notification : Option NotificationPayload) (lastNotifiedAt : Option String)
      (lastNotificationStatus : Option String)
deriving Repr, DecidableEq

/-- `handleNotificationPoll(request, env)` (worker.js lines 587-610):
trim the body's `endpoint`, 400 when blank, find the first stored record
whose trimmed `pushEndpoint` equals it, and return that record's
notification fields (each `|| null`).  The request's network metadata
and any declared client id are never read — `hashOwner` is not called
on this path. -/
def handleNotificationPoll (req : PollRequest) (saved : List SavedSearch) :
    PollResponse :=
  let endpoint := normalizeText req.bodyEndpoint
  if endpoint = "" then .err 400 "endpoint is required"
  else
    match saved.find? (fun s => normalizeTextOpt s.pushEndpoint == endpoint) with
    | none => .ok none none none
    | some m =>
      .ok m.lastNotificationPayload (orNullString m.lastNotifiedAt)
        (orNullString m.lastNotificationStatus)

/-! ## Helper lemmas -/

/-- The value `parseOptionalYear(v)` produces in lenient mode: the year
when in `[1900, 2100]`, otherwise `null`.  Proof-side abbreviation. -/
def lenientYear (v : Option Int) : Option Int :=
  match v with
  | none => none
  | some n => if 1900 ≤ n ∧ n ≤ 2100 then some n else none

/-- In lenient mode `parseOptionalYear` never throws. -/
lemma parseOptionalYear_lenient (v : Option Int) :
    parseOptionalYear v false = .ok (lenientYear v) := by
  cases v with
  | none => rfl
  | some n =>
    simp only [parseOptionalYear, lenientYear]
    split <;> simp

/-- Closed form of the lenient `deriveYearRange`: parse each field
leniently, default missing bounds to the single year, swap a reversed
pair. -/
lemma deriveYearRange_false_eq (source : YearSource) :
    deriveYearRange source false =
      .ok (match (lenientYear source.VehicleMinYear).orElse fun _ => lenientYear source.VehicleYear,
             (lenientYear source.VehicleMaxYear).orElse fun _ => lenientYear source.VehicleYear with
           | some a, some b =>
             if a > b then ⟨some (min a b), some (max a b)⟩ else ⟨some a, some b⟩
           | nMin, nMax => ⟨nMin, nMax⟩) := by
  unfold deriveYearRange
  rw [parseOptionalYear_lenient, parseOptionalYear_lenient, parseOptionalYear_lenient]
  simp only []
  split
  · split_ifs <;> first | rfl | contradiction
  · rfl

/-- In lenient mode `deriveYearRange` never throws. -/
lemma deriveYearRange_lenient_isOk (source : YearSource) :
    ∃ r, deriveYearRange source false = .ok r :=
  ⟨_, deriveYearRange_false_eq source⟩

/-- `deriveYearRangeLenient` is exactly the `.ok` payload of the lenient
`deriveYearRange`. -/
lemma deriveYearRange_lenient_ok (source : YearSource) :
    deriveYearRange source false = .ok (deriveYearRangeLenient source) := by
  obtain ⟨r, hr⟩ := deriveYearRange_lenient_isOk source
  unfold deriveYearRangeLenient
  rw [hr]

/-- `diffNewVehicles` in terms of row-level membership: it filters
`current` down to the rows whose key equals no key of `previous`. -/
lemma diffNewVehicles_eq_filter (current previous : List InventoryRow) :
    diffNewVehicles current previous =
      current.filter (fun r => decide (∀ p ∈ previous, inventoryKey p ≠ inventoryKey r)) := by
  unfold diffNewVehicles
  apply List.filter_congr
  intro r _
  by_cases hP : ∃ a ∈ previous, inventoryKey a = inventoryKey r
  · obtain ⟨p, hp, he⟩ := hP
    have h1 : (previous.map inventoryKey).contains (inventoryKey r) = true := by
      simp [List.contains, List.elem_eq_mem, List.mem_map]
      exact ⟨p, hp, he⟩
    have h2 : ¬(∀ p ∈ previous, inventoryKey p ≠ inventoryKey r) :=
      fun hall => hall p hp he
    simp [h1, h2]
    exact ⟨p, hp, he⟩
  · have h1 : (previous.map inventoryKey).contains (inventoryKey r) = false := by
      simp [List.contains, List.elem_eq_mem, List.mem_map]
      intro p hp he
      exact hP ⟨p, hp, he⟩
    have h2 : ∀ p ∈ previous, inventoryKey p ≠ inventoryKey r :=
      fun p hp he => hP ⟨p, hp, he⟩
    simp only [decide_eq_false hP, decide_eq_true h2, Bool.not_true, h1, Bool.not_false]

/-- When every current row's key occurs in `previous`, the diff is
empty. -/
lemma diffNewVehicles_eq_nil (current previous : List InventoryRow)
    (h : ∀ r ∈ current, ∃ p ∈ previous, inventoryKey p = inventoryKey r) :
    diffNewVehicles current previous = [] := by
  rw [diffNewVehicles_eq_filter, List.filter_eq_nil_iff]
  intro r hr
  obtain ⟨p, hp, hk⟩ := h r hr
  simp only [decide_eq_true_eq]
  intro hall
  exact hall p hp hk

/-- Diffing a row set against itself reports nothing. -/
lemma diffNewVehicles_self (l : List InventoryRow) :
    diffNewVehicles l l = [] :=
  diffNewVehicles_eq_nil l l fun r hr => ⟨r, hr, rfl⟩

/-- `yearRangesEqual` is propositional equality of ranges. -/
lemma yearRangesEqual_iff (a b : YearRange) :
    yearRangesEqual a b = true ↔ a = b := by
  cases a
  cases b
  simp [yearRangesEqual, YearRange.mk.injEq]

/-- The duplicate predicate of the create handler, spelled out: same
trimmed make (case-sensitive), same trimmed model, equal lenient year
range, same trimmed push endpoint. -/
lemma isDuplicateOf_iff (v : ValidatedPayload) (d : YearRange) (s : SavedSearch) :
    isDuplicateOf v d s = true ↔
      normalizeText s.VehicleMake = v.VehicleMake
      ∧ normalizeText s.VehicleModel = normalizeText v.VehicleModel
      ∧ deriveYearRangeLenient s.yearSource = d
      ∧ normalizeTextOpt s.pushEndpoint = normalizeText v.pushEndpoint := by
  simp [isDuplicateOf, Bool.and_eq_true, beq_iff_eq, yearRangesEqual_iff, and_assoc]

/-- A duplicate among the owner's records exists iff some stored record
of that owner agrees with the payload on trimmed make, trimmed model,
lenient year range and trimmed endpoint. -/
lemma dup_exists_iff (saved : List SavedSearch) (ownerKey : String)
    (v : ValidatedPayload) :
    (∃ s ∈ saved.filter (fun s => s.ownerKey == ownerKey),
        isDuplicateOf v (deriveYearRangeLenient v.yearSource) s = true) ↔
      (∃ s ∈ saved, s.ownerKey = ownerKey
        ∧ normalizeText s.VehicleMake = v.VehicleMake
        ∧ normalizeText s.VehicleModel = normalizeText v.VehicleModel
        ∧ deriveYearRangeLenient s.yearSource = deriveYearRangeLenient v.yearSource
        ∧ normalizeTextOpt s.pushEndpoint = normalizeText v.pushEndpoint) := by
  constructor
  · rintro ⟨s, hs, hdup⟩
    rw [List.mem_filter] at hs
    obtain ⟨h1, h2, h3, h4⟩ := (isDuplicateOf_iff v _ s).mp hdup
    exact ⟨s, hs.1, by simpa using hs.2, h1, h2, h3, h4⟩
  · rintro ⟨s, hs, howner, h1, h2, h3, h4⟩
    refine ⟨s, ?_, (isDuplicateOf_iff v _ s).mpr ⟨h1, h2, h3, h4⟩⟩
    rw [List.mem_filter]
    exact ⟨hs, by simpa using howner⟩

/-! ## Theorems -/

/-- C1: `diffNewVehicles(current, previous)` returns exactly the rows of
`current`, in their original order (a sublist of `current`), whose
identity key does not occur among the identity keys of `previous`; rows
only in `previous` are never reported, and when every row of `current`
has a key occurring in `previous` the result is empty. -/
theorem diffNewVehicles_new_rows (current previous : List InventoryRow) :
    diffNewVehicles current previous =
      current.filter (fun r => decide (∀ p ∈ previous, inventoryKey p ≠ inventoryKey r))
    ∧ (diffNewVehicles current previous).Sublist current
    ∧ ((∀ r ∈ current, ∃ p ∈ previous, inventoryKey p = inventoryKey r) →
        diffNewVehicles current previous = []) := by
  refine ⟨diffNewVehicles_eq_filter current previous, ?_,
    diffNewVehicles_eq_nil current previous⟩
  unfold diffNewVehicles
  exact List.filter_sublist _

/-- C1 witness: with `previous = [A, B]` and `current = [A, B, C]` (same
rows `A`, `B` by identity key plus the new `C`) the diff is `[C]`, and
with `current = [A]` (every current key occurs in previous) it is `[]`,
the latter obtained through the emptiness clause of
`diffNewVehicles_new_rows`. -/
theorem diffNewVehicles_new_rows_witness :
    diffNewVehicles
        [⟨"1020", "BOISE", 2009, "TOYOTA", "PRIUS", "3"⟩,
         ⟨"1022", "NAMPA", 2011, "TOYOTA", "PRIUS", "8"⟩,
         ⟨"1020", "BOISE", 2010, "TOYOTA", "PRIUS", "14"⟩]
        [⟨"1020", "BOISE", 2009, "TOYOTA", "PRIUS", "3"⟩,
         ⟨"1022", "NAMPA", 2011, "TOYOTA", "PRIUS", "8"⟩] =
      [⟨"1020", "BOISE", 2010, "TOYOTA", "PRIUS", "14"⟩]
    ∧ diffNewVehicles
        [⟨"1020", "BOISE", 2009, "TOYOTA", "PRIUS", "3"⟩]
        [⟨"1020", "BOISE", 2009, "TOYOTA", "PRIUS", "3"⟩,
         ⟨"1022", "NAMPA", 2011, "TOYOTA", "PRIUS", "8"⟩] = [] := by
  constructor
  · decide
  · exact (diffNewVehicles_new_rows
      [⟨"1020", "BOISE", 2009, "TOYOTA", "PRIUS", "3"⟩]
      [⟨"1020", "BOISE", 2009, "TOYOTA", "PRIUS", "3"⟩,
       ⟨"1022", "NAMPA", 2011, "TOYOTA", "PRIUS", "8"⟩]).2.2 (by decide)

/-- C3: with both bounds present and `minYear > maxYear` (bounds inside
`[1900, 2100]`), strict `deriveYearRange` throws while the lenient path
returns the bounds swapped into ascending order; a given year outside
`[1900, 2100]` also throws in strict mode; the lenient path never
throws; and with `minYear ≤ maxYear` both paths return the same bounds.
Concretely, `{minYear: 2015, maxYear: 2010}` fails strictly and derives
leniently to `{minYear: 2010, maxYear: 2015}`. -/
theorem deriveYearRange_strict_vs_lenient :
    (∀ m M : Int, 1900 ≤ M → M < m → m ≤ 2100 →
      deriveYearRange ⟨some m, some M, none⟩ true =
        .error "VehicleMinYear must be before VehicleMaxYear"
      ∧ deriveYearRange ⟨some m, some M, none⟩ false = .ok ⟨some M, some m⟩)
    ∧ (∀ (n : Int) (b y : Option Int), n < 1900 ∨ 2100 < n →
      deriveYearRange ⟨some n, b, y⟩ true =
        .error "Vehicle year must be between 1900 and 2100.")
    ∧ (∀ source, ∃ r, deriveYearRange source false = .ok r)
    ∧ (∀ m M : Int, 1900 ≤ m → m ≤ M → M ≤ 2100 →
      deriveYearRange ⟨some m, some M, none⟩ true = .ok ⟨some m, some M⟩
      ∧ deriveYearRange ⟨some m, some M, none⟩ false = .ok ⟨some m, some M⟩)
    ∧ deriveYearRange ⟨some 2015, some 2010, none⟩ true =
        .error "VehicleMinYear must be before VehicleMaxYear"
    ∧ deriveYearRangeLenient ⟨some 2015, some 2010, none⟩ = ⟨some 2010, some 2015⟩ := by
  refine ⟨?_, ?_, deriveYearRange_lenient_isOk, ?_, by rfl, by rfl⟩
  · intro m M h1 h2 h3
    have hm : 1900 ≤ m ∧ m ≤ 2100 := ⟨le_trans h1 (le_of_lt h2), h3⟩
    have hM : 1900 ≤ M ∧ M ≤ 2100 := ⟨h1, le_trans (le_of_lt h2) h3⟩
    constructor
    · simp only [deriveYearRange, parseOptionalYear, if_pos hm, if_pos hM, Option.orElse]
      simp only [if_pos (show m > M from h2)]
      exact if_pos trivial
    · rw [deriveYearRange_false_eq]
      simp only [lenientYear, if_pos hm, if_pos hM, Option.orElse]
      simp only [if_pos (show m > M from h2)]
      rw [min_eq_right (le_of_lt h2), max_eq_left (le_of_lt h2)]
  · intro n b y hn
    have hbad : ¬(1900 ≤ n ∧ n ≤ 2100) := by
      rcases hn with h | h
      · exact fun hc => absurd hc.1 (not_le.mpr h)
      · exact fun hc => absurd hc.2 (not_le.mpr h)
    simp only [deriveYearRange, parseOptionalYear, if_neg hbad]
    rw [if_pos trivial]
  · intro m M h1 h2 h3
    have hm : 1900 ≤ m ∧ m ≤ 2100 := ⟨h1, le_trans h2 h3⟩
    have hM : 1900 ≤ M ∧ M ≤ 2100 := ⟨le_trans h1 h2, h3⟩
    have hnot : ¬(m > M) := not_lt.mpr h2
    constructor
    · simp only [deriveYearRange, parseOptionalYear, if_pos hm, if_pos hM, Option.orElse,
        if_neg hnot]
    · rw [deriveYearRange_false_eq]
      simp only [lenientYear, if_pos hm, if_pos hM, Option.orElse, if_neg hnot]

/-- C3 witness: at `{minYear: 2015, maxYear: 2010}` the strict path
throws the min/max validation error and the lenient path swaps the
bounds, instantiating the first clause of
`deriveYearRange_strict_vs_lenient`. -/
theorem deriveYearRange_strict_vs_lenient_witness :
    deriveYearRange ⟨some 2015, some 2010, none⟩ true =
      .error "VehicleMinYear must be before VehicleMaxYear"
    ∧ deriveYearRange ⟨some 2015, some 2010, none⟩ false = .ok ⟨some 2010, some 2015⟩ :=
  deriveYearRange_strict_vs_lenient.1 2015 2010 (by decide) (by decide) (by decide)

/-- C2 counterexample: the serialization is NOT injective on the tuple
`(yardId, year, make, model, row)`.  The two rows below have distinct
tuples (`make "A:"`, `model "B"` versus `make "A"`, `model ":B"`) yet
serialize to the same key `"1020:2010:A::B:5"`, because the separator
`:` occurring inside a field is not escaped.  So two rows with distinct
tuples ARE treated as the same vehicle, contradicting the claim. -/
theorem inventoryKey_not_injective :
    inventoryKey ⟨"1020", "BOISE", 2010, "A:", "B", "5"⟩ =
      inventoryKey ⟨"1020", "BOISE", 2010, "A", ":B", "5"⟩
    ∧ (("1020" : String), (2010 : Nat), ("A:" : String), ("B" : String), ("5" : String)) ≠
      ("1020", 2010, "A", ":B", "5") := by
  constructor
  · rfl
  · decide

/-- C2 amended: matching tuples always produce equal keys (the key
depends on nothing but the tuple), but the converse fails — the
serialization is not injective, since a separator character inside a
field (or falsy field values such as year `0`, serialized as `""`) can
make rows with distinct tuples collide on the same key. -/
theorem inventoryKey_tuple_key :
    (∀ r1 r2 : InventoryRow, r1.yardId = r2.yardId → r1.year = r2.year →
      r1.make = r2.make → r1.model = r2.model → r1.row = r2.row →
      inventoryKey r1 = inventoryKey r2)
    ∧ (∃ r1 r2 : InventoryRow,
        inventoryKey r1 = inventoryKey r2
        ∧ (r1.yardId, r1.year, r1.make, r1.model, r1.row) ≠
          (r2.yardId, r2.year, r2.make, r2.model, r2.row)) := by
  constructor
  · intro r1 r2 h1 h2 h3 h4 h5
    simp [inventoryKey, h1, h2, h3, h4, h5]
  · exact ⟨⟨"1020", "BOISE", 2010, "A:", "B", "5"⟩,
      ⟨"1020", "BOISE", 2010, "A", ":B", "5"⟩, rfl, by decide⟩

/-- C2 amended witness: two rows sharing the identity tuple but
differing in `yardName` (which is not part of the tuple) receive the
same key, by the congruence half of `inventoryKey_tuple_key`. -/
theorem inventoryKey_tuple_key_witness :
    inventoryKey ⟨"1020", "BOISE", 2010, "TOYOTA", "PRIUS", "14"⟩ =
      inventoryKey ⟨"1020", "GARDEN CITY", 2010, "TOYOTA", "PRIUS", "14"⟩ :=
  inventoryKey_tuple_key.1 _ _ rfl rfl rfl rfl rfl

/-- C5: during one sweep every record's `lastSnapshot` is replaced by
the freshly aggregated, year-range-filtered row set even when the diff
is empty; when the diff detects no new vehicles the record is exactly
the old one with only `lastSnapshot` replaced (so `lastNotifiedAt`,
`lastNotificationStatus`, `lastNotificationPayload` are untouched); in
particular a sweep whose fresh rows equal the stored snapshot leaves
`lastNotifiedAt` as it was (null for a record that never fired).  The
whole sweep maps this per-record step over every stored record. -/
theorem sweep_frame_effect (search : SavedSearch) (aggregated : List InventoryRow)
    (now : String) (deliver : List InventoryRow → DeliveryResult) :
    (sweepStep search aggregated now deliver).lastSnapshot = runSavedSearch search aggregated
    ∧ (diffNewVehicles (runSavedSearch search aggregated) search.lastSnapshot = [] →
        sweepStep search aggregated now deliver =
          { search with lastSnapshot := runSavedSearch search aggregated })
    ∧ (runSavedSearch search aggregated = search.lastSnapshot →
        (sweepStep search aggregated now deliver).lastNotifiedAt = search.lastNotifiedAt
        ∧ (sweepStep search aggregated now deliver).lastNotificationStatus =
            search.lastNotificationStatus
        ∧ (sweepStep search aggregated now deliver).lastNotificationPayload =
            search.lastNotificationPayload)
    ∧ (∀ (saved : List SavedSearch) (fetch : SavedSearch → List InventoryRow)
        (deliver2 : SavedSearch → List InventoryRow → DeliveryResult),
        (rerunSavedSearches saved fetch now deliver2).length = saved.length
        ∧ ∀ i : Nat, (rerunSavedSearches saved fetch now deliver2)[i]? =
            (saved[i]?).map fun s => sweepStep s (fetch s) now (deliver2 s)) := by
  have hframe : diffNewVehicles (runSavedSearch search aggregated) search.lastSnapshot = [] →
      sweepStep search aggregated now deliver =
        { search with lastSnapshot := runSavedSearch search aggregated } := by
    intro h
    simp [sweepStep, h]
  refine ⟨?_, hframe, ?_, ?_⟩
  · simp only [sweepStep]
    split <;> rfl
  · intro h
    rw [hframe (h ▸ diffNewVehicles_self search.lastSnapshot)]
    exact ⟨rfl, rfl, rfl⟩
  · intro saved fetch deliver2
    constructor
    · simp [rerunSavedSearches]
    · intro i
      simp only [rerunSavedSearches, List.getElem?_map]

/-- C5 witness: a record with a one-row snapshot, re-aggregated to the
identical row set (no upstream change), keeps its null `lastNotifiedAt`
and null notification fields while the snapshot is (re)installed,
instantiating the frame clause of `sweep_frame_effect`. -/
theorem sweep_frame_effect_witness :
    (sweepStep
        { id := "id1", ownerKey := "ownerA", createdAt := "2026-01-01T00:00:00Z",
          VehicleMake := "TOYOTA", VehicleModel := "PRIUS", VehicleYear := none,
          VehicleMinYear := some 2008, VehicleMaxYear := some 2012,
          pushEndpoint := some "https://push.example/ep1", pushAuth := some "a",
          pushP256dh := some "p",
          lastSnapshot := [⟨"1020", "BOISE", 2010, "TOYOTA", "PRIUS", "14"⟩],
          lastNotifiedAt := none, lastNotificationStatus := none,
          lastNotificationPayload := none }
        [⟨"1020", "BOISE", 2010, "TOYOTA", "PRIUS", "14"⟩]
        "2026-01-02T09:00:00Z"
        (fun rows => ⟨"push sent", ⟨"t", "b", "id1", rows.length, "BOISE"⟩⟩)).lastNotifiedAt
      = none := by
  have h := (sweep_frame_effect
      { id := "id1", ownerKey := "ownerA", createdAt := "2026-01-01T00:00:00Z",
        VehicleMake := "TOYOTA", VehicleModel := "PRIUS", VehicleYear := none,
        VehicleMinYear := some 2008, VehicleMaxYear := some 2012,
        pushEndpoint := some "https://push.example/ep1", pushAuth := some "a",
        pushP256dh := some "p",
        lastSnapshot := [⟨"1020", "BOISE", 2010, "TOYOTA", "PRIUS", "14"⟩],
        lastNotifiedAt := none, lastNotificationStatus := none,
        lastNotificationPayload := none }
      [⟨"1020", "BOISE", 2010, "TOYOTA", "PRIUS", "14"⟩]
      "2026-01-02T09:00:00Z"
      (fun rows => ⟨"push sent", ⟨"t", "b", "id1", rows.length, "BOISE"⟩⟩)).2.2.1
  exact (h (by decide)).1

/-- C4 counterexample: makes differing only in letter case are NOT
treated as identical by the duplicate check — `normalizeText` only
trims, it does not normalize case.  Against a store holding owner A's
`TOYOTA PRIUS` alert (no year bounds, endpoint `ep1`), re-creating the
very same alert is rejected with 409, but creating it with make
`"toyota"` (all else identical) proceeds, contradicting the claim that
case-differing makes count as identical. -/
theorem createAlert_duplicate_case_sensitive :
    createAlert
        [{ id := "id1", ownerKey := "ownerA", createdAt := "2026-01-01T00:00:00Z",
           VehicleMake := "TOYOTA", VehicleModel := "PRIUS", VehicleYear := none,
           VehicleMinYear := none, VehicleMaxYear := none,
           pushEndpoint := some "https://push.example/ep1", pushAuth := some "a",
           pushP256dh := some "p", lastSnapshot := [], lastNotifiedAt := none,
           lastNotificationStatus := none, lastNotificationPayload := none }]
        "ownerA"
        { VehicleMake := "TOYOTA", VehicleModel := "PRIUS", VehicleYear := none,
          VehicleMinYear := none, VehicleMaxYear := none,
          pushEndpoint := "https://push.example/ep1", pushAuth := "a", pushP256dh := "p" }
        "id2" "2026-01-02T00:00:00Z" (.ok [])
      = .err 409 "You already saved this search."
    ∧ createAlert
        [{ id := "id1", ownerKey := "ownerA", createdAt := "2026-01-01T00:00:00Z",
           VehicleMake := "TOYOTA", VehicleModel := "PRIUS", VehicleYear := none,
           VehicleMinYear := none, VehicleMaxYear := none,
           pushEndpoint := some "https://push.example/ep1", pushAuth := some "a",
           pushP256dh := some "p", lastSnapshot := [], lastNotifiedAt := none,
           lastNotificationStatus := none, lastNotificationPayload := none }]
        "ownerA"
        { VehicleMake := "toyota", VehicleModel := "PRIUS", VehicleYear := none,
          VehicleMinYear := none, VehicleMaxYear := none,
          pushEndpoint := "https://push.example/ep1", pushAuth := "a", pushP256dh := "p" }
        "id2" "2026-01-02T00:00:00Z" (.ok [])
      ≠ .err 409 "You already saved this search." := by
  constructor
  · decide
  · decide

/-- C4 amended: below both quotas, the create path rejects with the 409
conflict exactly when some existing record of the same `ownerKey` has
trimmed make and trimmed model identical under CASE-SENSITIVE
comparison (the code only trims, it does not case-normalize), an equal
derived lenient year range and an equal trimmed push endpoint; when no
such record exists creation proceeds. -/
theorem createAlert_duplicate_iff (saved : List SavedSearch) (ownerKey : String)
    (validated : ValidatedPayload) (newId now : String)
    (prefetch : Except String (List InventoryRow))
    (h1 : saved.length < MAX_ALERTS_TOTAL)
    (h2 : (saved.filter (fun s => s.ownerKey == ownerKey)).length < MAX_ALERTS_PER_OWNER) :
    (createAlert saved ownerKey validated newId now prefetch =
        .err 409 "You already saved this search." ↔
      ∃ s ∈ saved, s.ownerKey = ownerKey
        ∧ normalizeText s.VehicleMake = validated.VehicleMake
        ∧ normalizeText s.VehicleModel = normalizeText validated.VehicleModel
        ∧ deriveYearRangeLenient s.yearSource = deriveYearRangeLenient validated.yearSource
        ∧ normalizeTextOpt s.pushEndpoint = normalizeText validated.pushEndpoint)
    ∧ ((¬ ∃ s ∈ saved, s.ownerKey = ownerKey
        ∧ normalizeText s.VehicleMake = validated.VehicleMake
        ∧ normalizeText s.VehicleModel = normalizeText validated.VehicleModel
        ∧ deriveYearRangeLenient s.yearSource = deriveYearRangeLenient validated.yearSource
        ∧ normalizeTextOpt s.pushEndpoint = normalizeText validated.pushEndpoint) →
      ∃ newStore, createAlert saved ownerKey validated newId now prefetch = .ok newStore) := by
  have hex : (∃ s ∈ saved.filter (fun s => s.ownerKey == ownerKey),
      isDuplicateOf validated (deriveYearRangeLenient validated.yearSource) s = true) ↔
      (∃ s ∈ saved, s.ownerKey = ownerKey
        ∧ normalizeText s.VehicleMake = validated.VehicleMake
        ∧ normalizeText s.VehicleModel = normalizeText validated.VehicleModel
        ∧ deriveYearRangeLenient s.yearSource = deriveYearRangeLenient validated.yearSource
        ∧ normalizeTextOpt s.pushEndpoint = normalizeText validated.pushEndpoint) :=
    dup_exists_iff saved ownerKey validated
  cases hf : (saved.filter (fun s => s.ownerKey == ownerKey)).find?
      (isDuplicateOf validated (deriveYearRangeLenient validated.yearSource)) with
  | none =>
    have hno : ¬ ∃ s ∈ saved.filter (fun s => s.ownerKey == ownerKey),
        isDuplicateOf validated (deriveYearRangeLenient validated.yearSource) s = true := by
      rintro ⟨s, hs, hdup⟩
      exact absurd hdup (List.find?_eq_none.mp hf s hs)
    have hok : ∃ newStore,
        createAlert saved ownerKey validated newId now prefetch = .ok newStore := by
      unfold createAlert
      rw [if_neg (not_le.mpr h1), if_neg (not_le.mpr h2)]
      simp only [hf]
      exact ⟨_, rfl⟩
    obtain ⟨ns, hns⟩ := hok
    constructor
    · rw [hns]
      simp only [reduceCtorEq, false_iff]
      exact fun hc => hno (hex.mpr hc)
    · exact fun _ => ⟨ns, hns⟩
  | some x =>
    have hsome : ∃ s ∈ saved.filter (fun s => s.ownerKey == ownerKey),
        isDuplicateOf validated (deriveYearRangeLenient validated.yearSource) s = true := by
      have := List.find?_isSome.mp (by rw [hf]; rfl)
      exact this
    have herr : createAlert saved ownerKey validated newId now prefetch =
        .err 409 "You already saved this search." := by
      unfold createAlert
      rw [if_neg (not_le.mpr h1), if_neg (not_le.mpr h2)]
      simp only [hf]
    constructor
    · rw [herr]
      simp only [true_iff]
      exact hex.mp hsome
    · exact fun hno => absurd (hex.mp hsome) hno

/-- C4 amended witness: re-creating owner A's exact `TOYOTA PRIUS`
alert (same trimmed make/model, same empty year range, same endpoint)
against a one-record store is rejected with 409, by
`createAlert_duplicate_iff`. -/
theorem createAlert_duplicate_iff_witness :
    createAlert
        [{ id := "id1", ownerKey := "ownerA", createdAt := "2026-01-01T00:00:00Z",
           VehicleMake := "TOYOTA", VehicleModel := "PRIUS", VehicleYear := none,
           VehicleMinYear := none, VehicleMaxYear := none,
           pushEndpoint := some "https://push.example/ep1", pushAuth := some "a",
           pushP256dh := some "p", lastSnapshot := [], lastNotifiedAt := none,
           lastNotificationStatus := none, lastNotificationPayload := none }]
        "ownerA"
        { VehicleMake := "TOYOTA", VehicleModel := "PRIUS", VehicleYear := none,
          VehicleMinYear := none, VehicleMaxYear := none,
          pushEndpoint := "https://push.example/ep1", pushAuth := "a", pushP256dh := "p" }
        "id2" "2026-01-02T00:00:00Z" (.ok [])
      = .err 409 "You already saved this search." :=
  ((createAlert_duplicate_iff _ "ownerA" _ "id2" "2026-01-02T00:00:00Z" (.ok [])
      (by decide) (by decide)).1).mpr (by decide)

/-- C6: the create path returns the 429 quota error whenever the store
already holds `MAX_ALERTS_TOTAL = 500` records (whatever the owner), or
the requesting owner already holds `MAX_ALERTS_PER_OWNER = 25`; below
both thresholds a non-duplicate create succeeds and appends exactly one
record. -/
theorem createAlert_quota (saved : List SavedSearch) (ownerKey : String)
    (validated : ValidatedPayload) (newId now : String)
    (prefetch : Except String (List InventoryRow)) :
    (saved.length ≥ MAX_ALERTS_TOTAL →
      createAlert saved ownerKey validated newId now prefetch =
        .err 429 "Alert capacity reached. Try again later.")
    ∧ (saved.length < MAX_ALERTS_TOTAL →
        (saved.filter (fun s => s.ownerKey == ownerKey)).length ≥ MAX_ALERTS_PER_OWNER →
        createAlert saved ownerKey validated newId now prefetch =
          .err 429 "Too many saved alerts. Delete one before adding another.")
    ∧ (saved.length < MAX_ALERTS_TOTAL →
        (saved.filter (fun s => s.ownerKey == ownerKey)).length < MAX_ALERTS_PER_OWNER →
        (∀ s ∈ saved.filter (fun s => s.ownerKey == ownerKey),
          isDuplicateOf validated (deriveYearRangeLenient validated.yearSource) s = false) →
        ∃ newStore, createAlert saved ownerKey validated newId now prefetch = .ok newStore
          ∧ newStore.length = saved.length + 1) := by
  refine ⟨?_, ?_, ?_⟩
  · intro h
    simp [createAlert, if_pos h]
  · intro h1 h2
    simp [createAlert, if_neg (not_le.mpr h1), if_pos h2]
  · intro h1 h2 h3
    have hfind : (saved.filter (fun s => s.ownerKey == ownerKey)).find?
        (isDuplicateOf validated (deriveYearRangeLenient validated.yearSource)) = none :=
      List.find?_eq_none.mpr fun s hs => by simp [h3 s hs]
    simp only [createAlert, if_neg (not_le.mpr h1), if_neg (not_le.mpr h2), hfind]
    exact ⟨_, rfl, by simp⟩

/-- C6 witness: on a one-record store below both quotas, a
non-duplicate create succeeds and yields a two-record store,
instantiating the success clause of `createAlert_quota`. -/
theorem createAlert_quota_witness :
    ∃ newStore,
      createAlert
          [{ id := "id1", ownerKey := "ownerA", createdAt := "2026-01-01T00:00:00Z",
             VehicleMake := "TOYOTA", VehicleModel := "PRIUS", VehicleYear := none,
             VehicleMinYear := none, VehicleMaxYear := none,
             pushEndpoint := some "https://push.example/ep1", pushAuth := some "a",
             pushP256dh := some "p", lastSnapshot := [], lastNotifiedAt := none,
             lastNotificationStatus := none, lastNotificationPayload := none }]
          "ownerA"
          { VehicleMake := "HONDA", VehicleModel := "CIVIC", VehicleYear := none,
            VehicleMinYear := none, VehicleMaxYear := none,
            pushEndpoint := "https://push.example/ep1", pushAuth := "a", pushP256dh := "p" }
          "id2" "2026-01-02T00:00:00Z" (.ok [])
        = .ok newStore ∧ newStore.length = 1 + 1 :=
  (createAlert_quota _ "ownerA" _ "id2" "2026-01-02T00:00:00Z" (.ok [])).2.2
    (by decide) (by decide) (by decide)

/-- C7: with a non-blank id, the delete path's resulting store is
exactly the old store minus every record matching both the trimmed id
and the requesting ownerKey (all other records kept, in order); the
outcome is the single 404 "Not found" error precisely when no record
matches both — whether the id does not exist at all or the record
belongs to a different owner — and in that case the store is left
unchanged; when a match exists the outcome is success carrying the
filtered store. -/
theorem deleteAlert_owner_scoped (saved : List SavedSearch) (ownerKey rawId : String)
    (hid : jsTrim rawId ≠ "") :
    (deleteAlert saved ownerKey rawId).2 =
        saved.filter (fun s => !(s.id == jsTrim rawId && s.ownerKey == ownerKey))
    ∧ ((deleteAlert saved ownerKey rawId).1 = .err 404 "Not found" ↔
        ¬ ∃ s ∈ saved, s.id = jsTrim rawId ∧ s.ownerKey = ownerKey)
    ∧ (∀ s, s ∈ (deleteAlert saved ownerKey rawId).2 ↔
        s ∈ saved ∧ ¬(s.id = jsTrim rawId ∧ s.ownerKey = ownerKey))
    ∧ ((¬ ∃ s ∈ saved, s.id = jsTrim rawId ∧ s.ownerKey = ownerKey) →
        (deleteAlert saved ownerKey rawId).2 = saved)
    ∧ ((∃ s ∈ saved, s.id = jsTrim rawId ∧ s.ownerKey = ownerKey) →
        (deleteAlert saved ownerKey rawId).1 =
          .ok (saved.filter (fun s => !(s.id == jsTrim rawId && s.ownerKey == ownerKey)))) := by
  have hkeep : ∀ s : SavedSearch,
      (!(s.id == jsTrim rawId && s.ownerKey == ownerKey)) = true ↔
        ¬(s.id = jsTrim rawId ∧ s.ownerKey = ownerKey) := by
    intro s
    simp only [Bool.not_eq_true', Bool.and_eq_false_iff, beq_eq_false_iff_ne, ne_eq, not_and]
    tauto
  have hnomatch : (saved.filter
        (fun s => !(s.id == jsTrim rawId && s.ownerKey == ownerKey))).length = saved.length ↔
      ¬ ∃ s ∈ saved, s.id = jsTrim rawId ∧ s.ownerKey = ownerKey := by
    rw [List.filter_length_eq_length]
    constructor
    · rintro h ⟨s, hs, h1, h2⟩
      exact ((hkeep s).mp (h s hs)) ⟨h1, h2⟩
    · intro h s hs
      exact (hkeep s).mpr fun hc => h ⟨s, hs, hc⟩
  have hfil : ∀ s, s ∈ saved.filter
        (fun s => !(s.id == jsTrim rawId && s.ownerKey == ownerKey)) ↔
      s ∈ saved ∧ ¬(s.id = jsTrim rawId ∧ s.ownerKey = ownerKey) := by
    intro s
    rw [List.mem_filter, hkeep s]
  by_cases hm : ∃ s ∈ saved, s.id = jsTrim rawId ∧ s.ownerKey = ownerKey
  · have hlen : (saved.filter
          (fun s => !(s.id == jsTrim rawId && s.ownerKey == ownerKey))).length ≠
        saved.length := fun h => (hnomatch.mp h) hm
    have hd : deleteAlert saved ownerKey rawId =
        (.ok (saved.filter (fun s => !(s.id == jsTrim rawId && s.ownerKey == ownerKey))),
         saved.filter (fun s => !(s.id == jsTrim rawId && s.ownerKey == ownerKey))) := by
      unfold deleteAlert
      rw [if_neg hid, if_neg hlen]
    refine ⟨by rw [hd], ?_, ?_, fun hn => absurd hm hn, fun _ => by rw [hd]⟩
    · rw [hd]
      simp only [reduceCtorEq, false_iff]
      exact fun hc => hc hm
    · intro s
      rw [hd]
      exact hfil s
  · have hlen : (saved.filter
          (fun s => !(s.id == jsTrim rawId && s.ownerKey == ownerKey))).length =
        saved.length := hnomatch.mpr hm
    have hfeq : saved.filter
          (fun s => !(s.id == jsTrim rawId && s.ownerKey == ownerKey)) = saved :=
      List.filter_eq_self.mpr fun s hs => (hkeep s).mpr fun hc => hm ⟨s, hs, hc⟩
    have hd : deleteAlert saved ownerKey rawId = (.err 404 "Not found", saved) := by
      unfold deleteAlert
      rw [if_neg hid, if_pos hlen]
    refine ⟨by rw [hd, hfeq], ?_, ?_, fun _ => by rw [hd], fun hc => absurd hc hm⟩
    · rw [hd]
      simpa using hm
    · intro s
      rw [hd]
      constructor
      · intro hs
        exact ⟨hs, fun hc => hm ⟨s, hs, hc⟩⟩
      · exact fun h => h.1

/-- C7 witness: deleting with owner A an id that belongs to owner B
returns 404 "Not found" and leaves the store unchanged, by
`deleteAlert_owner_scoped`. -/
theorem deleteAlert_owner_scoped_witness :
    (deleteAlert
        [{ id := "idB", ownerKey := "ownerB", createdAt := "2026-01-01T00:00:00Z",
           VehicleMake := "TOYOTA", VehicleModel := "PRIUS", VehicleYear := none,
           VehicleMinYear := none, VehicleMaxYear := none,
           pushEndpoint := some "https://push.example/epB", pushAuth := some "a",
           pushP256dh := some "p", lastSnapshot := [], lastNotifiedAt := none,
           lastNotificationStatus := none, lastNotificationPayload := none }]
        "ownerA" "idB").1 = .err 404 "Not found" :=
  ((deleteAlert_owner_scoped _ "ownerA" "idB" (by decide)).2.1).mpr (by decide)

/-- C8 counterexample: an invocation carrying no trigger identity
(`event.cron` absent, hence falsy) is NOT ignored — the guard
`if (event.cron && event.cron !== DAILY_ALERT_CRON) return` falls
through and the sweep is started, contradicting the claim that the
sweep runs only when the trigger identity equals the expected
schedule. -/
theorem scheduled_no_cron_runs :
    scheduledRunsSweep none = true
    ∧ (none : Option String) ≠ some DAILY_ALERT_CRON := by
  exact ⟨rfl, by decide⟩

/-- C8 amended: the scheduled entry point starts the sweep iff the
invocation's trigger identity is absent, is the empty string (both
falsy, so the guard falls through), or equals the expected schedule
`"0 9 * * *"`; only a present, non-empty, non-matching cron string is
ignored. -/
theorem scheduled_guard_amended (cron : Option String) :
    scheduledRunsSweep cron = true ↔
      (cron = none ∨ cron = some "" ∨ cron = some DAILY_ALERT_CRON) := by
  cases cron with
  | none => simp [scheduledRunsSweep]
  | some c =>
    simp only [scheduledRunsSweep]
    by_cases h1 : c = ""
    · simp [h1]
    · by_cases h2 : c = DAILY_ALERT_CRON
      · simp [h1, h2]
      · simp [h1, h2]

/-- C9: `runPool` is total (no task exception propagates out of its
type) and returns one entry per task over the full task list: the entry
at index `i` is `[]` when task `i` failed and the task's own result
otherwise, for every concurrency limit. -/
theorem runPool_isolates_failures {α : Type} (taskFns : List (Except String (List α)))
    (limit : Nat) :
    (runPool taskFns limit).length = taskFns.length
    ∧ (∀ i : Nat, (runPool taskFns limit)[i]? =
        (taskFns[i]?).map fun t =>
          match t with
          | .ok v => v
          | .error _ => []) := by
  constructor
  · simp [runPool]
  · intro i
    simp only [runPool, List.getElem?_map]
    rfl

/-- C10 first half: the poll response depends only on the trimmed body
endpoint, not on any caller identity. -/
lemma handleNotificationPoll_endpoint_only (req1 req2 : PollRequest)
    (saved : List SavedSearch)
    (h : normalizeText req1.bodyEndpoint = normalizeText req2.bodyEndpoint) :
    handleNotificationPoll req1 saved = handleNotificationPoll req2 saved := by
  unfold handleNotificationPoll
  rw [h]

/-- C10 second half: rewriting every stored record's `ownerKey` leaves
the poll response unchanged — the handler never consults it. -/
lemma handleNotificationPoll_ownerKey_invariant (req : PollRequest)
    (f : String → String) (saved : List SavedSearch) :
    handleNotificationPoll req (saved.map fun s => { s with ownerKey := f s.ownerKey }) =
      handleNotificationPoll req saved := by
  unfold handleNotificationPoll
  by_cases hb : normalizeText req.bodyEndpoint = ""
  · simp [hb]
  · simp only [if_neg hb]
    induction saved with
    | nil => rfl
    | cons s ss ih =>
      simp only [List.map_cons, List.find?]
      cases hp : normalizeTextOpt s.pushEndpoint == normalizeText req.bodyEndpoint with
      | true => simp [hp]
      | false => simpa [hp] using ih

/-- C10: the notification poll performs no ownership or authentication
check: two requests with the same trimmed body endpoint receive the
identical response against the same store, whatever their network
address or declared client identifier, and the response is invariant
under arbitrary rewriting of every record's `ownerKey`. -/
theorem handleNotificationPoll_no_auth :
    (∀ (req1 req2 : PollRequest) (saved : List SavedSearch),
      normalizeText req1.bodyEndpoint = normalizeText req2.bodyEndpoint →
      handleNotificationPoll req1 saved = handleNotificationPoll req2 saved)
    ∧ (∀ (req : PollRequest) (f : String → String) (saved : List SavedSearch),
      handleNotificationPoll req (saved.map fun s => { s with ownerKey := f s.ownerKey }) =
        handleNotificationPoll req saved) :=
  ⟨handleNotificationPoll_endpoint_only, handleNotificationPoll_ownerKey_invariant⟩

/-- C10 witness: two requests from different network addresses and
client identifiers but the same body endpoint get the same response on
a one-record store, by `handleNotificationPoll_no_auth`. -/
theorem handleNotificationPoll_no_auth_witness :
    handleNotificationPoll ⟨"1.2.3.4", "browser-a", "https://push.example/ep1", "alice"⟩
        [{ id := "id1", ownerKey := "ownerB", createdAt := "2026-01-01T00:00:00Z",
           VehicleMake := "TOYOTA", VehicleModel := "PRIUS", VehicleYear := none,
           VehicleMinYear := none, VehicleMaxYear := none,
           pushEndpoint := some "https://push.example/ep1", pushAuth := some "a",
           pushP256dh := some "p", lastSnapshot := [], lastNotifiedAt := none,
           lastNotificationStatus := none, lastNotificationPayload := none }] =
      handleNotificationPoll ⟨"5.6.7.8", "browser-b", "https://push.example/ep1", "mallory"⟩
        [{ id := "id1", ownerKey := "ownerB", createdAt := "2026-01-01T00:00:00Z",
           VehicleMake := "TOYOTA", VehicleModel := "PRIUS", VehicleYear := none,
           VehicleMinYear := none, VehicleMaxYear := none,
           pushEndpoint := some "https://push.example/ep1", pushAuth := some "a",
           pushP256dh := some "p", lastSnapshot := [], lastNotifiedAt := none,
           lastNotificationStatus := none, lastNotificationPayload := none }] :=
  handleNotificationPoll_no_auth.1 _ _ _ rfl

end JalopyAlerts
